import Mathlib

/-!
Shallow embedding of the eCAL service client implementation
(`src/ecal/core/src/service/ecal_service_client_impl.cpp`, class
`CServiceClientImpl`) together with proofs about the claims on it.

C++ `std::map` fields become association lists with unique keys; the
external client gate (`g_clientgate()->GetServiceAttr`) becomes an
`Option (List SServiceAttr)` snapshot argument; session creation by the
client manager and the asynchronous completion of in-flight calls become
explicit oracle arguments, so that every code path of the source is a
total function of the state and its environment.
-/

set_option maxHeartbeats 1000000

/-- Call state of a service response (`eCallState` in the source). -/
inductive ECallState
  | call_state_none
  | call_state_executed
  | call_state_failed
deriving DecidableEq, Repr

/-- Session state of a client session (`eCAL::service::State`). -/
inductive SessionState
  | connecting
  | connected
  | failed
deriving DecidableEq, Repr

/-- Client event kinds (`eCAL_Client_Event`). -/
inductive EventType
  | connected
  | disconnected
  | client_timeout
deriving DecidableEq, Repr

/-- Peer service descriptor (`SServiceAttr`): discovery data for one peer. -/
structure SServiceAttr where
  hname : String
  sname : String
  key : String
  tcp_port_v0 : Nat
  tcp_port_v1 : Nat
  version : Nat
deriving DecidableEq, Repr

/-- Service response record (`SServiceResponse`). -/
structure SServiceResponse where
  host_name : String
  service_name : String
  service_id : String
  method_name : String
  error_msg : String
  ret_state : Int
  call_state : ECallState
  response : String
deriving DecidableEq, Repr

/-- One client session held in `m_client_map`.  The incarnation number is a
ghost field distinguishing distinct sessions created for the same peer key. -/
structure Session where
  incarnation : Nat
  state : SessionState
deriving DecidableEq, Repr

/-- Association-list lookup, mirroring `std::map::find`. -/
def lookupA {α β : Type} [DecidableEq α] : List (α × β) → α → Option β
  | [], _ => Option.none
  | (k, v) :: rest, key => if k = key then some v else lookupA rest key

/-- Association-list insert-or-assign, mirroring `std::map::operator[] = v`. -/
def insertA {α β : Type} [DecidableEq α] : List (α × β) → α → β → List (α × β)
  | [], key, v => [(key, v)]
  | (k, w) :: rest, key, v =>
    if k = key then (key, v) :: rest else (k, w) :: insertA rest key v

/-- Association-list erase by key.  A `std::map` holds at most one entry per
key, so erasing by key removes every binding in the list embedding. -/
def eraseA {α β : Type} [DecidableEq α] (m : List (α × β)) (key : α) :
    List (α × β) :=
  m.filter (fun p => decide (p.1 ≠ key))

/-- Protobuf response-header call state (`eCAL::pb::ServiceHeader_eCallState`).
The wire enum can hold values other than executed/failed; the `default`
branch of the `switch` in `fromProtobuf` leaves the call state untouched. -/
inductive PbCallState
  | executed
  | failed
  | other
deriving DecidableEq, Repr

/-- Parsed protobuf response header (`eCAL::pb::Response::header`). -/
structure ResponseHeaderPb where
  hname : String
  sname : String
  sid : String
  mname : String
  error : String
  state : PbCallState
deriving DecidableEq, Repr

/-- Parsed protobuf response (`eCAL::pb::Response`). -/
structure ResponsePb where
  header : ResponseHeaderPb
  ret_state : Int
  response : String
deriving DecidableEq, Repr

/-- `CServiceClientImpl::fromProtobuf`: copies all header fields into the
response; the `switch` on the wire state maps executed/failed and leaves
the previous call state in place on any other value. -/
def fromProtobuf (pb : ResponsePb) (r : SServiceResponse) : SServiceResponse :=
  { r with
      host_name := pb.header.hname
      service_name := pb.header.sname
      service_id := pb.header.sid
      method_name := pb.header.mname
      error_msg := pb.header.error
      ret_state := pb.ret_state
      call_state :=
        match pb.header.state with
        | PbCallState.executed => ECallState.call_state_executed
        | PbCallState.failed => ECallState.call_state_failed
        | PbCallState.other => r.call_state
      response := pb.response }

/-- `CServiceClientImpl::fromSerializedProtobuf`.  The protobuf parser is
library code outside this repository, so the wire payload is embedded as its
parse result: `some pb` when `ParseFromString` succeeds, `Option.none` when
it fails. -/
def fromSerializedProtobuf (parsed : Option ResponsePb) (r : SServiceResponse) :
    SServiceResponse :=
  match parsed with
  | some pb => fromProtobuf pb r
  | Option.none =>
    { r with
        error_msg := "Could not parse server response"
        ret_state := 0
        call_state := ECallState.call_state_failed
        response := "" }

/-- How the asynchronous completion of one dispatched peer call has resolved
by the time the blocking fan-out returns: not yet run (`pending`), run with a
transport error, or run with a response payload (whose parse may fail). -/
inductive CompletionOutcome
  | pending
  | transportError (msg : String)
  | completedWith (parsed : Option ResponsePb)
deriving DecidableEq, Repr

/-- Body of the per-peer response callback lambda in the blocking
`CServiceClientImpl::Call`: on error overwrite `error_msg`, `call_state`,
`ret_state`; otherwise run `fromSerializedProtobuf`; a completion that has
not run leaves the pre-populated slot untouched. -/
def applyCompletion (c : CompletionOutcome) (r : SServiceResponse) :
    SServiceResponse :=
  match c with
  | CompletionOutcome.pending => r
  | CompletionOutcome.transportError msg =>
    { r with
        error_msg := msg
        call_state := ECallState.call_state_failed
        ret_state := 0 }
  | CompletionOutcome.completedWith parsed => fromSerializedProtobuf parsed r

/-- Version/port selection of `CServiceClientImpl::CheckForNewServices`:
`protocol_version = (tcp_port_v1 != 0 ? version : 0)` and
`port_to_use = (protocol_version == 0 ? tcp_port_v0 : tcp_port_v1)`. -/
def sessionParams (attr : SServiceAttr) : Nat × Nat :=
  let protocol_version := if attr.tcp_port_v1 ≠ 0 then attr.version else 0
  let port_to_use := if protocol_version = 0 then attr.tcp_port_v0 else attr.tcp_port_v1
  (protocol_version, port_to_use)

/-- State of one `CServiceClientImpl` object: its scalar fields, the three
maps and the response callback (represented by presence flags for the
callback targets), plus the ghost incarnation counter for sessions. -/
structure ClientState where
  m_created : Bool
  m_service_name : String
  m_service_id : String
  m_host_name : String
  m_client_map : List (String × Session)
  m_connected_services_map : List (String × SServiceAttr)
  /-- Event callback map: the Bool is `true` for a real callback target and
  `false` for a null `std::function` stored under the key. -/
  m_event_callback_map : List (EventType × Bool)
  m_response_callback : Bool
  next_incarnation : Nat
deriving DecidableEq, Repr

/-- Record of one event callback invocation. -/
structure EventRec where
  etype : EventType
  key : String
  incarnation : Nat
deriving DecidableEq, Repr

/-- Dispatching an event of type `t`: the code does
`find(t)` on the event callback map and invokes the stored target whenever
the entry exists.  Result: events actually fired, and whether a null target
was invoked (which faults: calling a null `std::function` throws). -/
def emitEvent (ecb : List (EventType × Bool)) (t : EventType) (key : String)
    (inc : Nat) : List EventRec × Bool :=
  match lookupA ecb t with
  | Option.none => ([], false)
  | some true => ([⟨t, key, inc⟩], false)
  | some false => ([], true)

/-- Record of one `create_client` attempt made by `CheckForNewServices`. -/
structure CreationAttempt where
  attr : SServiceAttr
  protocol_version : Nat
  port_to_use : Nat
  succeeded : Bool
deriving DecidableEq, Repr

/-- Loop body of `CheckForNewServices` over the client map and the
incarnation counter: for each discovered peer not yet in the map, attempt to
create a session with the version/port from `sessionParams`; the oracle
says whether `create_client` succeeds and in which state the session starts. -/
def checkFold (oracle : List (String × SessionState)) :
    List SServiceAttr →
    List (String × Session) × Nat × List CreationAttempt →
    List (String × Session) × Nat × List CreationAttempt
  | [], acc => acc
  | attr :: rest, (cmap, inc, log) =>
    match lookupA cmap attr.key with
    | some _ => checkFold oracle rest (cmap, inc, log)
    | Option.none =>
      let params := sessionParams attr
      match lookupA oracle attr.key with
      | some s0 =>
        checkFold oracle rest
          (cmap ++ [(attr.key, ⟨inc, s0⟩)], inc + 1,
           log ++ [⟨attr, params.1, params.2, true⟩])
      | Option.none =>
        checkFold oracle rest (cmap, inc, log ++ [⟨attr, params.1, params.2, false⟩])

/-- `CServiceClientImpl::CheckForNewServices`, also returning the log of
session-creation attempts.  A null client gate is a no-op.  (The
manager-stopped early return only truncates the loop; every state it can
produce is produced by a shorter snapshot, so it is not modelled
separately.) -/
def CheckForNewServicesFull (gate : Option (List SServiceAttr))
    (oracle : List (String × SessionState)) (st : ClientState) :
    ClientState × List CreationAttempt :=
  match gate with
  | Option.none => (st, [])
  | some vec =>
    let r := checkFold oracle vec (st.m_client_map, st.next_incarnation, [])
    ({ st with m_client_map := r.1, next_incarnation := r.2.1 }, r.2.2)

/-- `CheckForNewServices` as a state transformer. -/
def CheckForNewServices (gate : Option (List SServiceAttr))
    (oracle : List (String × SessionState)) (st : ClientState) : ClientState :=
  (CheckForNewServicesFull gate oracle st).1

/-- `CServiceClientImpl::RegisterService` (called by `CClientGate` when a
matching service is announced): if the key is not yet in
`m_connected_services_map`, fire the connect event and insert the service.
No lookup of `m_client_map` is performed.  The recorded incarnation is that
of the session currently stored for the key (0 if none).  If the event entry
holds a null target, the invocation faults before the insert. -/
def RegisterService (key : String) (attr : SServiceAttr) (st : ClientState) :
    ClientState × List EventRec × Bool :=
  match lookupA st.m_connected_services_map key with
  | some _ => (st, [], false)
  | Option.none =>
    let inc :=
      match lookupA st.m_client_map key with
      | some s => s.incarnation
      | Option.none => 0
    let e := emitEvent st.m_event_callback_map EventType.connected key inc
    if e.2 then (st, e.1, true)
    else
      ({ st with
          m_connected_services_map := st.m_connected_services_map ++ [(key, attr)] },
       e.1, false)

/-- Disconnect scan of `CServiceClientImpl::Register`: iterate the client
map; for every session in FAILED state whose key is still in the connected
services map, fire the disconnect event and erase the key.  A null event
target faults and aborts the scan (the exception propagates). -/
def scanFailed (ecb : List (EventType × Bool)) :
    List (String × Session) → List (String × SServiceAttr) →
    List (String × SServiceAttr) × List EventRec × Bool
  | [], conn => (conn, [], false)
  | (k, sess) :: rest, conn =>
    if sess.state = SessionState.failed ∧ (lookupA conn k).isSome then
      match lookupA ecb EventType.disconnected with
      | some false => (conn, [], true)
      | some true =>
        let out := scanFailed ecb rest (eraseA conn k)
        (out.1, ⟨EventType.disconnected, k, sess.incarnation⟩ :: out.2.1, out.2.2)
      | Option.none =>
        let out := scanFailed ecb rest (eraseA conn k)
        (out.1, out.2.1, out.2.2)
    else scanFailed ecb rest conn

/-- `CServiceClientImpl::Register`: no-op on an empty service name;
otherwise push the registration sample to the external bus (no client
state), run `CheckForNewServices`, then the disconnect scan. -/
def Register (gate : Option (List SServiceAttr))
    (oracle : List (String × SessionState)) (st : ClientState) :
    ClientState × List EventRec × Bool :=
  if st.m_service_name = "" then (st, [], false)
  else
    let st1 := CheckForNewServices gate oracle st
    let s := scanFailed st1.m_event_callback_map st1.m_client_map
      st1.m_connected_services_map
    ({ st1 with m_connected_services_map := s.1 }, s.2.1, s.2.2)

/-- `CServiceClientImpl::RefreshRegistration` (periodic entry point): only
runs `Register` on a created client. -/
def RefreshRegistration (gate : Option (List SServiceAttr))
    (oracle : List (String × SessionState)) (st : ClientState) :
    ClientState × List EventRec × Bool :=
  if st.m_created then Register gate oracle st else (st, [], false)

/-- `CServiceClientImpl::Create`: on a non-created client, set the service
name and a fresh service id (a steady-clock token, supplied here as an
argument), run `Register(false)`, then mark created.  A fault inside
`Register` escapes before `m_created` is set. -/
def Create (service_name service_id : String)
    (gate : Option (List SServiceAttr)) (oracle : List (String × SessionState))
    (st : ClientState) : ClientState × List EventRec × Bool :=
  if st.m_created then (st, [], false)
  else
    let st1 := { st with m_service_name := service_name, m_service_id := service_id }
    let r := Register gate oracle st1
    if r.2.2 then (r.1, r.2.1, true)
    else ({ r.1 with m_created := true }, r.2.1, false)

/-- `CServiceClientImpl::Destroy`: on a created client, clear
`m_client_map`, null `m_response_callback`, clear `m_event_callback_map`,
unregister on the external bus (no client state), reset the scalar fields
and the created flag.  `m_connected_services_map` is not touched.  Returns
the success flag. -/
def Destroy (st : ClientState) : ClientState × Bool :=
  if st.m_created then
    ({ st with
        m_client_map := []
        m_response_callback := false
        m_event_callback_map := []
        m_service_name := ""
        m_service_id := ""
        m_host_name := ""
        m_created := false }, true)
  else (st, false)

/-- `CServiceClientImpl::AddEventCallback`: requires a created client;
stores a real callback target under the event type. -/
def AddEventCallback (t : EventType) (st : ClientState) : ClientState × Bool :=
  if st.m_created then
    ({ st with m_event_callback_map := insertA st.m_event_callback_map t true }, true)
  else (st, false)

/-- `CServiceClientImpl::RemEventCallback`: requires a created client;
assigns `nullptr` to the map entry via `operator[]` — the entry stays in
the map and now holds a null target. -/
def RemEventCallback (t : EventType) (st : ClientState) : ClientState × Bool :=
  if st.m_created then
    ({ st with m_event_callback_map := insertA st.m_event_callback_map t false }, true)
  else (st, false)

/-- `CServiceClientImpl::AddResponseCallback`. -/
def AddResponseCallback (st : ClientState) : ClientState :=
  { st with m_response_callback := true }

/-- `CServiceClientImpl::RemResponseCallback`. -/
def RemResponseCallback (st : ClientState) : ClientState :=
  { st with m_response_callback := false }

/-- `CServiceClientImpl::SetHostName`: `"*"` clears the host filter. -/
def SetHostName (h : String) (st : ClientState) : ClientState :=
  if h = "*" then { st with m_host_name := "" } else { st with m_host_name := h }

/-- Environment event: a client session asynchronously transitions to
FAILED (any I/O error; FAILED is terminal). -/
def sessionFailure (key : String) (st : ClientState) : ClientState :=
  { st with
      m_client_map := st.m_client_map.map
        (fun p => if p.1 = key then (p.1, { p.2 with state := SessionState.failed }) else p) }

/-- One step of the client's visible operations (with the environment data
each needs: gate snapshot, session-creation oracle, async failures). -/
inductive Op
  | create (service_name service_id : String) (gate : Option (List SServiceAttr))
      (oracle : List (String × SessionState))
  | destroy
  | checkForNewServices (gate : Option (List SServiceAttr))
      (oracle : List (String × SessionState))
  | registerService (key : String) (attr : SServiceAttr)
  | refreshRegistration (gate : Option (List SServiceAttr))
      (oracle : List (String × SessionState))
  | addEventCallback (t : EventType)
  | remEventCallback (t : EventType)
  | addResponseCallback
  | remResponseCallback
  | setHostName (h : String)
  | sessionFail (key : String)
deriving DecidableEq, Repr

/-- Step function: next state, events fired, and whether the step faulted
(invoked a null event callback target). -/
def step (st : ClientState) : Op → ClientState × List EventRec × Bool
  | Op.create n i g o => Create n i g o st
  | Op.destroy => ((Destroy st).1, [], false)
  | Op.checkForNewServices g o => (CheckForNewServices g o st, [], false)
  | Op.registerService k a => RegisterService k a st
  | Op.refreshRegistration g o => RefreshRegistration g o st
  | Op.addEventCallback t => ((AddEventCallback t st).1, [], false)
  | Op.remEventCallback t => ((RemEventCallback t st).1, [], false)
  | Op.addResponseCallback => (AddResponseCallback st, [], false)
  | Op.remResponseCallback => (RemResponseCallback st, [], false)
  | Op.setHostName h => (SetHostName h st, [], false)
  | Op.sessionFail k => (sessionFailure k st, [], false)

/-- Run a sequence of operations; a fault (uncaught exception) stops the
run.  Returns the final state, the full event trace, and the fault flag. -/
def runAux : ClientState → List Op → ClientState × List EventRec × Bool
  | st, [] => (st, [], false)
  | st, op :: rest =>
    let r := step st op
    if r.2.2 then (r.1, r.2.1, true)
    else
      let r2 := runAux r.1 rest
      (r2.1, r.2.1 ++ r2.2.1, r2.2.2)

/-- Host-filter test of the dispatch loops:
`m_host_name.empty() || (m_host_name == service.hname)`. -/
def hostMatches (host_filter : String) (attr : SServiceAttr) : Bool :=
  decide (host_filter = "" ∨ host_filter = attr.hname)

/-- The peers the fan-out dispatches to: those in the gate snapshot that
match the host filter and have a session in the client map. -/
def dispatchList (host_filter : String) (cmap : List (String × Session))
    (vec : List SServiceAttr) : List SServiceAttr :=
  vec.filter (fun s => hostMatches host_filter s && (lookupA cmap s.key).isSome)

/-- Slot pre-populated by the blocking `Call` for one dispatched peer,
before `async_call_service` is submitted. -/
def initialSlot (attr : SServiceAttr) (method_name : String) : SServiceResponse :=
  { host_name := attr.hname
    service_name := attr.sname
    service_id := attr.key
    method_name := method_name
    error_msg := "Timeout"
    ret_state := 0
    call_state := ECallState.call_state_failed
    response := "" }

/-- Dispatch loop of the blocking `Call`: walk the gate snapshot; for every
matching peer with a session, append a pre-populated slot and apply the
completion outcome recorded for that slot index (the index is the slot
count so far, `responses->size() - 1` in the source). -/
def callLoop (host_filter : String) (cmap : List (String × Session))
    (method_name : String) (outcomes : Nat → CompletionOutcome) :
    List SServiceAttr → Nat → List SServiceResponse
  | [], _ => []
  | s :: rest, i =>
    if hostMatches host_filter s && (lookupA cmap s.key).isSome then
      applyCompletion (outcomes i) (initialSlot s method_name)
        :: callLoop host_filter cmap method_name outcomes rest (i + 1)
    else callLoop host_filter cmap method_name outcomes rest i

/-- Blocking fan-out `CServiceClientImpl::Call(method, request, timeout,
vec*)` with a non-null output vector.  Early returns (null gate, not
created, empty names) leave the caller's vector untouched (`prev_out`).
Otherwise the vector is cleared, `CheckForNewServices` runs, the dispatch
loop fills the aggregator, and after the wait the slots are copied out;
the return value is true iff some slot is executed.  The `outcomes` oracle
says how each dispatched slot's completion has resolved by wake-up time
(`pending` = the timeout fired first and the slot keeps its default).
The gate snapshot is read once and shared with `CheckForNewServices`. -/
def Call (gate : Option (List SServiceAttr))
    (oracle : List (String × SessionState)) (st : ClientState)
    (method_name : String) (outcomes : Nat → CompletionOutcome)
    (prev_out : List SServiceResponse) : Bool × List SServiceResponse :=
  match gate with
  | Option.none => (false, prev_out)
  | some vec =>
    if st.m_created then
      if st.m_service_name = "" ∨ method_name = "" then (false, prev_out)
      else
        let st1 := CheckForNewServices gate oracle st
        let slots := callLoop st.m_host_name st1.m_client_map method_name outcomes vec 0
        (slots.any (fun r => decide (r.call_state = ECallState.call_state_executed)),
         slots)
    else (false, prev_out)

/-- `CServiceClientImpl::ErrorCallback`: if a response callback is set,
invoke it once with a default-constructed response (strings empty,
`ret_state` 0, `call_state` none — the struct's default initialiser lives
outside this repository) overwritten with the failure fields.  Returns the
list of invocations made. -/
def ErrorCallback (st : ClientState) (method_name error_message : String) :
    List SServiceResponse :=
  if st.m_response_callback then
    [{ host_name := ""
       service_name := ""
       service_id := ""
       method_name := method_name
       error_msg := error_message
       ret_state := 0
       call_state := ECallState.call_state_failed
       response := "" }]
  else []

/-- `CServiceClientImpl::CallAsync`: the three guard failures return false
after reporting through `ErrorCallback`; otherwise refresh discovery,
submit `async_call_service` to every matching peer with a session, and
return whether at least one was called.  (The per-peer completions run
later and are not synchronous invocations of this function.) -/
def CallAsync (gate : Option (List SServiceAttr))
    (oracle : List (String × SessionState)) (st : ClientState)
    (method_name : String) : Bool × List SServiceResponse :=
  match gate with
  | Option.none => (false, ErrorCallback st method_name "Clientgate error.")
  | some vec =>
    if st.m_created then
      if st.m_service_name = "" ∨ method_name = "" then
        (false, ErrorCallback st method_name "Invalid service or method name.")
      else
        let st1 := CheckForNewServices gate oracle st
        (vec.any (fun s => hostMatches st.m_host_name s && (lookupA st1.m_client_map s.key).isSome),
         [])
    else (false, ErrorCallback st method_name "Client hasn't been created yet.")

/-- Freshly constructed `CServiceClientImpl` (default constructor). -/
def initState : ClientState :=
  { m_created := false
    m_service_name := ""
    m_service_id := ""
    m_host_name := ""
    m_client_map := []
    m_connected_services_map := []
    m_event_callback_map := []
    m_response_callback := false
    next_incarnation := 1 }

/-! ### Helper lemmas about the dispatch loop -/

/-- The slots of the blocking call, indexed along the dispatched peers. -/
def slotsFrom (method_name : String) (outcomes : Nat → CompletionOutcome) :
    Nat → List SServiceAttr → List SServiceResponse
  | _, [] => []
  | i, s :: rest =>
    applyCompletion (outcomes i) (initialSlot s method_name)
      :: slotsFrom method_name outcomes (i + 1) rest

theorem callLoop_eq_slotsFrom (hf : String) (cmap : List (String × Session))
    (m : String) (oc : Nat → CompletionOutcome) (l : List SServiceAttr) :
    ∀ i : Nat, callLoop hf cmap m oc l i = slotsFrom m oc i (dispatchList hf cmap l) := by
  induction l with
  | nil => intro i; rfl
  | cons s rest ih =>
    intro i
    by_cases h : (hostMatches hf s && (lookupA cmap s.key).isSome) = true
    · simp [callLoop, dispatchList, List.filter_cons, h, slotsFrom, ih]
    · simp [callLoop, dispatchList, List.filter_cons, h, slotsFrom, ih]

theorem slotsFrom_length (m : String) (oc : Nat → CompletionOutcome)
    (l : List SServiceAttr) : ∀ i, (slotsFrom m oc i l).length = l.length := by
  induction l with
  | nil => intro i; rfl
  | cons s rest ih => intro i; simp [slotsFrom, ih (i + 1)]

theorem slotsFrom_getElem (m : String) (oc : Nat → CompletionOutcome)
    (l : List SServiceAttr) :
    ∀ i j, (slotsFrom m oc i l)[j]? =
      (l[j]?).map (fun s => applyCompletion (oc (i + j)) (initialSlot s m)) := by
  induction l with
  | nil => intro i j; simp [slotsFrom]
  | cons s rest ih =>
    intro i j
    cases j with
    | zero => simp [slotsFrom]
    | succ j' =>
      simp only [slotsFrom, List.getElem?_cons_succ, ih (i + 1) j']
      have : i + 1 + j' = i + (j' + 1) := by omega
      rw [this]

/-! ### Claims about the blocking fan-out -/

/-- Claim C1: a blocking fan-out `Call` on a created client with non-empty
service and method names (and the client gate present) returns `true` iff
at least one aggregated response slot is in executed state; with zero
dispatched peers it returns `false` with an empty output vector. -/
theorem C1_blocking_call_true_iff_executed
    (vec : List SServiceAttr) (oracle : List (String × SessionState))
    (st : ClientState) (method_name : String)
    (outcomes : Nat → CompletionOutcome) (prev_out : List SServiceResponse)
    (hcreated : st.m_created = true) (hs : st.m_service_name ≠ "")
    (hm : method_name ≠ "") :
    ((Call (some vec) oracle st method_name outcomes prev_out).1 = true ↔
      ∃ r ∈ (Call (some vec) oracle st method_name outcomes prev_out).2,
        r.call_state = ECallState.call_state_executed) ∧
    (dispatchList st.m_host_name
        (CheckForNewServices (some vec) oracle st).m_client_map vec = [] →
      (Call (some vec) oracle st method_name outcomes prev_out).1 = false ∧
      (Call (some vec) oracle st method_name outcomes prev_out).2 = []) := by
  have hnames : ¬(st.m_service_name = "" ∨ method_name = "") := by
    rintro (h | h) <;> [exact hs h; exact hm h]
  simp only [Call, hcreated, if_true, hnames, if_false,
    callLoop_eq_slotsFrom st.m_host_name _ method_name outcomes vec 0]
  constructor
  · rw [List.any_eq_true]
    constructor
    · rintro ⟨r, hr, hd⟩
      exact ⟨r, hr, of_decide_eq_true hd⟩
    · rintro ⟨r, hr, hd⟩
      exact ⟨r, hr, decide_eq_true hd⟩
  · intro hempty
    rw [hempty]
    exact ⟨rfl, rfl⟩

/-- Claim C1 witness: a created client with a session-less snapshot
dispatches to nobody, returns `false` and leaves the output empty. -/
theorem C1_witness :
    ({ initState with m_created := true, m_service_name := "svc" } : ClientState).m_created = true ∧
    ({ initState with m_created := true, m_service_name := "svc" } : ClientState).m_service_name ≠ "" ∧
    ("echo" : String) ≠ "" ∧
    ((Call (some [⟨"h", "svc", "k", 1, 0, 0⟩]) []
        { initState with m_created := true, m_service_name := "svc" }
        "echo" (fun _ => CompletionOutcome.pending) []).1 = false ∧
      (Call (some [⟨"h", "svc", "k", 1, 0, 0⟩]) []
        { initState with m_created := true, m_service_name := "svc" }
        "echo" (fun _ => CompletionOutcome.pending) []).2 = []) :=
  ⟨rfl, by decide, by decide,
    (C1_blocking_call_true_iff_executed [⟨"h", "svc", "k", 1, 0, 0⟩] []
      { initState with m_created := true, m_service_name := "svc" }
      "echo" (fun _ => CompletionOutcome.pending) []
      rfl (by decide) (by decide)).2 (by decide)⟩

/-- Claim C2: every dispatched peer's slot is pre-populated with the peer's
host name, service name, the peer key as service id, the call's method
name, `error_msg = "Timeout"`, `ret_state = 0`, failed call state and an
empty response; if the peer's completion has not run by wake-up time
(`pending`), that pre-populated value is exactly what the caller receives
in the corresponding output slot. -/
theorem C2_slot_prepopulated_timeout_default
    (vec : List SServiceAttr) (oracle : List (String × SessionState))
    (st : ClientState) (method_name : String)
    (outcomes : Nat → CompletionOutcome) (prev_out : List SServiceResponse)
    (hcreated : st.m_created = true) (hs : st.m_service_name ≠ "")
    (hm : method_name ≠ "") (i : Nat) (s : SServiceAttr)
    (hget : (dispatchList st.m_host_name
        (CheckForNewServices (some vec) oracle st).m_client_map vec)[i]? = some s)
    (hpending : outcomes i = CompletionOutcome.pending) :
    (Call (some vec) oracle st method_name outcomes prev_out).2[i]?
      = some (initialSlot s method_name) ∧
    initialSlot s method_name =
      { host_name := s.hname
        service_name := s.sname
        service_id := s.key
        method_name := method_name
        error_msg := "Timeout"
        ret_state := 0
        call_state := ECallState.call_state_failed
        response := "" } := by
  have hnames : ¬(st.m_service_name = "" ∨ method_name = "") := by
    rintro (h | h) <;> [exact hs h; exact hm h]
  refine ⟨?_, rfl⟩
  simp only [Call, hcreated, if_true, hnames, if_false,
    callLoop_eq_slotsFrom st.m_host_name _ method_name outcomes vec 0,
    slotsFrom_getElem, hget, Option.map_some]
  rw [Nat.zero_add, hpending]
  rfl

/-- Claim C2 witness: one dispatched peer whose completion never runs
yields exactly the pre-populated timeout slot. -/
theorem C2_witness :
    ((dispatchList "" (CheckForNewServices (some [⟨"h", "svc", "k", 1, 0, 0⟩]) []
        { initState with
            m_created := true
            m_service_name := "svc"
            m_client_map := [("k", ⟨1, SessionState.connecting⟩)] }).m_client_map
        [⟨"h", "svc", "k", 1, 0, 0⟩])[0]? = some ⟨"h", "svc", "k", 1, 0, 0⟩) ∧
    (Call (some [⟨"h", "svc", "k", 1, 0, 0⟩]) []
        { initState with
            m_created := true
            m_service_name := "svc"
            m_client_map := [("k", ⟨1, SessionState.connecting⟩)] }
        "echo" (fun _ => CompletionOutcome.pending) []).2[0]?
      = some (initialSlot ⟨"h", "svc", "k", 1, 0, 0⟩ "echo") :=
  ⟨by decide,
    (C2_slot_prepopulated_timeout_default [⟨"h", "svc", "k", 1, 0, 0⟩] []
      { initState with
          m_created := true
          m_service_name := "svc"
          m_client_map := [("k", ⟨1, SessionState.connecting⟩)] }
      "echo" (fun _ => CompletionOutcome.pending) []
      rfl (by decide) (by decide) 0 ⟨"h", "svc", "k", 1, 0, 0⟩
      (by decide) rfl).1⟩

/-- Claim C7: the output vector of a blocking fan-out with a non-null
output vector has exactly one slot per peer dispatched to at call time
(host filter matched and session present after the discovery refresh),
whatever the completion outcomes are. -/
theorem C7_output_length_eq_dispatched
    (vec : List SServiceAttr) (oracle : List (String × SessionState))
    (st : ClientState) (method_name : String)
    (outcomes : Nat → CompletionOutcome) (prev_out : List SServiceResponse)
    (hcreated : st.m_created = true) (hs : st.m_service_name ≠ "")
    (hm : method_name ≠ "") :
    (Call (some vec) oracle st method_name outcomes prev_out).2.length =
      (dispatchList st.m_host_name
        (CheckForNewServices (some vec) oracle st).m_client_map vec).length := by
  have hnames : ¬(st.m_service_name = "" ∨ method_name = "") := by
    rintro (h | h) <;> [exact hs h; exact hm h]
  simp only [Call, hcreated, if_true, hnames, if_false,
    callLoop_eq_slotsFrom st.m_host_name _ method_name outcomes vec 0,
    slotsFrom_length]

/-- Claim C7 witness: two peers in the snapshot, one with a session — the
output has exactly one slot. -/
theorem C7_witness :
    (Call (some [⟨"h", "svc", "k", 1, 0, 0⟩, ⟨"h2", "svc", "k2", 1, 0, 0⟩]) []
        { initState with
            m_created := true
            m_service_name := "svc"
            m_client_map := [("k", ⟨1, SessionState.connecting⟩)] }
        "echo" (fun _ => CompletionOutcome.transportError "eof") []).2.length =
      (dispatchList ""
        (CheckForNewServices (some [⟨"h", "svc", "k", 1, 0, 0⟩, ⟨"h2", "svc", "k2", 1, 0, 0⟩]) []
          { initState with
              m_created := true
              m_service_name := "svc"
              m_client_map := [("k", ⟨1, SessionState.connecting⟩)] }).m_client_map
        [⟨"h", "svc", "k", 1, 0, 0⟩, ⟨"h2", "svc", "k2", 1, 0, 0⟩]).length :=
  C7_output_length_eq_dispatched
    [⟨"h", "svc", "k", 1, 0, 0⟩, ⟨"h2", "svc", "k2", 1, 0, 0⟩] []
    { initState with
        m_created := true
        m_service_name := "svc"
        m_client_map := [("k", ⟨1, SessionState.connecting⟩)] }
    "echo" (fun _ => CompletionOutcome.transportError "eof") []
    rfl (by decide) (by decide)

/-- Claim C9: when a completion resolves with a transport error or with a
payload that fails to parse, the pre-populated identity fields of the slot
(`host_name`, `service_name`, `service_id`, `method_name`) are unchanged;
only the error/result fields are overwritten. -/
theorem C9_error_paths_preserve_identity_fields
    (r : SServiceResponse) (msg : String) :
    ((applyCompletion (CompletionOutcome.transportError msg) r).host_name = r.host_name ∧
     (applyCompletion (CompletionOutcome.transportError msg) r).service_name = r.service_name ∧
     (applyCompletion (CompletionOutcome.transportError msg) r).service_id = r.service_id ∧
     (applyCompletion (CompletionOutcome.transportError msg) r).method_name = r.method_name) ∧
    ((applyCompletion (CompletionOutcome.completedWith Option.none) r).host_name = r.host_name ∧
     (applyCompletion (CompletionOutcome.completedWith Option.none) r).service_name = r.service_name ∧
     (applyCompletion (CompletionOutcome.completedWith Option.none) r).service_id = r.service_id ∧
     (applyCompletion (CompletionOutcome.completedWith Option.none) r).method_name = r.method_name) :=
  ⟨⟨rfl, rfl, rfl, rfl⟩, ⟨rfl, rfl, rfl, rfl⟩⟩

/-! ### Claims about the discovery refresh (version/port rule) -/

theorem sessionParams_cases (attr : SServiceAttr) :
    (attr.tcp_port_v1 ≠ 0 → attr.version ≠ 0 →
      sessionParams attr = (attr.version, attr.tcp_port_v1)) ∧
    ((attr.tcp_port_v1 = 0 ∨ attr.version = 0) →
      sessionParams attr = (0, attr.tcp_port_v0)) := by
  constructor
  · intro h1 h2
    simp [sessionParams, h1, h2]
  · rintro (h | h)
    · simp [sessionParams, h]
    · by_cases h1 : attr.tcp_port_v1 = 0
      · simp [sessionParams, h1]
      · simp [sessionParams, h1, h]

theorem checkFold_log_params (oracle : List (String × SessionState)) :
    ∀ (vec : List SServiceAttr)
      (acc : List (String × Session) × Nat × List CreationAttempt),
      (∀ c ∈ acc.2.2, (c.protocol_version, c.port_to_use) = sessionParams c.attr) →
      ∀ c ∈ (checkFold oracle vec acc).2.2,
        (c.protocol_version, c.port_to_use) = sessionParams c.attr := by
  intro vec
  induction vec with
  | nil => intro acc hacc c hc; exact hacc c hc
  | cons attr rest ih =>
    rintro ⟨cmap, inc, log⟩ hacc c hc
    simp only [checkFold] at hc
    rcases h1 : lookupA cmap attr.key with _ | sess
    · rcases h2 : lookupA oracle attr.key with _ | s0
      · rw [h1, h2] at hc
        refine ih _ ?_ c hc
        intro c' hc'
        rcases List.mem_append.mp hc' with h | h
        · exact hacc c' h
        · rcases List.mem_singleton.mp h with rfl
          rfl
      · rw [h1, h2] at hc
        refine ih _ ?_ c hc
        intro c' hc'
        rcases List.mem_append.mp hc' with h | h
        · exact hacc c' h
        · rcases List.mem_singleton.mp h with rfl
          rfl
    · rw [h1] at hc
      exact ih _ hacc c hc

/-- Claim C3 counterexample: a peer with `tcp_port_v1 = 5 ≠ 0` but
`announced_version = 0` is given port `tcp_port_v0 = 4`, not `tcp_port_v1`,
refuting the claim that the session is created with port `tcp_port_v1`
whenever `tcp_port_v1` is nonzero. -/
theorem C3_counterexample :
    (⟨"h", "s", "k", 4, 5, 0⟩ : SServiceAttr).tcp_port_v1 ≠ 0 ∧
    (CheckForNewServicesFull (some [⟨"h", "s", "k", 4, 5, 0⟩]) [] initState).2 =
      [⟨⟨"h", "s", "k", 4, 5, 0⟩, 0, 4, false⟩] ∧
    (4 : Nat) ≠ (⟨"h", "s", "k", 4, 5, 0⟩ : SServiceAttr).tcp_port_v1 := by decide

/-- Claim C3 (amended): a new session for a not-yet-known peer is created
with protocol version `announced_version` and port `tcp_port_v1` whenever
both `tcp_port_v1` and `announced_version` are nonzero; otherwise with
protocol version 0 and port `tcp_port_v0` (the port is derived from the
computed version, so a nonzero `tcp_port_v1` with `announced_version = 0`
still falls back to `tcp_port_v0`). -/
theorem C3_amended_version_rule (gate : Option (List SServiceAttr))
    (oracle : List (String × SessionState)) (st : ClientState)
    (c : CreationAttempt) (hc : c ∈ (CheckForNewServicesFull gate oracle st).2) :
    (c.attr.tcp_port_v1 ≠ 0 → c.attr.version ≠ 0 →
      c.protocol_version = c.attr.version ∧ c.port_to_use = c.attr.tcp_port_v1) ∧
    ((c.attr.tcp_port_v1 = 0 ∨ c.attr.version = 0) →
      c.protocol_version = 0 ∧ c.port_to_use = c.attr.tcp_port_v0) := by
  have hp : (c.protocol_version, c.port_to_use) = sessionParams c.attr := by
    rcases gate with _ | vec
    · simp [CheckForNewServicesFull] at hc
    · exact checkFold_log_params oracle vec _ (by intro c' hc'; simp at hc') c hc
  constructor
  · intro h1 h2
    have := (sessionParams_cases c.attr).1 h1 h2
    rw [this] at hp
    exact ⟨congrArg Prod.fst hp, congrArg Prod.snd hp⟩
  · intro h
    have := (sessionParams_cases c.attr).2 h
    rw [this] at hp
    exact ⟨congrArg Prod.fst hp, congrArg Prod.snd hp⟩

/-- Claim C3 witness: a peer with both ports and a nonzero announced
version gets `announced_version` and `tcp_port_v1`. -/
theorem C3_witness :
    ((⟨⟨"h", "s", "k2", 4, 5, 3⟩, 3, 5, false⟩ : CreationAttempt) ∈
      (CheckForNewServicesFull (some [⟨"h", "s", "k2", 4, 5, 3⟩]) [] initState).2) ∧
    ((3 : Nat) = (⟨"h", "s", "k2", 4, 5, 3⟩ : SServiceAttr).version ∧
     (5 : Nat) = (⟨"h", "s", "k2", 4, 5, 3⟩ : SServiceAttr).tcp_port_v1) :=
  ⟨by decide,
    (C3_amended_version_rule (some [⟨"h", "s", "k2", 4, 5, 3⟩]) [] initState
      ⟨⟨"h", "s", "k2", 4, 5, 3⟩, 3, 5, false⟩ (by decide)).1 (by decide) (by decide)⟩

/-! ### Claims about tear-down -/

/-- Claim C5 counterexample: a created client whose connected-services map
is non-empty (reachable via `Create` then `RegisterService`): `Destroy`
returns `true` but leaves the connected-services map intact, refuting the
claim that every map the client holds is cleared. -/
theorem C5_counterexample :
    (Destroy (runAux initState
        [Op.create "svc" "sid" Option.none [],
         Op.registerService "k" ⟨"h", "svc", "k", 1, 0, 0⟩]).1).2 = true ∧
    (Destroy (runAux initState
        [Op.create "svc" "sid" Option.none [],
         Op.registerService "k" ⟨"h", "svc", "k", 1, 0, 0⟩]).1).1.m_connected_services_map =
      [("k", ⟨"h", "svc", "k", 1, 0, 0⟩)] := by decide

/-- Claim C5 (amended): `Destroy` on a created client clears the
peer-session map and the event-callback map, nulls the response callback,
resets the created flag, and returns `true` (the unregister sample goes to
the external registration bus); the connected-services map is NOT cleared
and survives destruction unchanged. -/
theorem C5_amended_destroy (st : ClientState) (h : st.m_created = true) :
    (Destroy st).2 = true ∧
    (Destroy st).1.m_client_map = [] ∧
    (Destroy st).1.m_event_callback_map = [] ∧
    (Destroy st).1.m_response_callback = false ∧
    (Destroy st).1.m_created = false ∧
    (Destroy st).1.m_connected_services_map = st.m_connected_services_map := by
  simp [Destroy, h]

/-- Claim C5 witness. -/
theorem C5_witness :
    ({ initState with
        m_created := true
        m_service_name := "svc"
        m_client_map := [("k", ⟨1, SessionState.failed⟩)] } : ClientState).m_created = true ∧
    (Destroy { initState with
        m_created := true
        m_service_name := "svc"
        m_client_map := [("k", ⟨1, SessionState.failed⟩)] }).2 = true ∧
    (Destroy { initState with
        m_created := true
        m_service_name := "svc"
        m_client_map := [("k", ⟨1, SessionState.failed⟩)] }).1.m_client_map = [] :=
  ⟨rfl,
    (C5_amended_destroy { initState with
        m_created := true
        m_service_name := "svc"
        m_client_map := [("k", ⟨1, SessionState.failed⟩)] } rfl).1,
    (C5_amended_destroy { initState with
        m_created := true
        m_service_name := "svc"
        m_client_map := [("k", ⟨1, SessionState.failed⟩)] } rfl).2.1⟩

/-! ### Claims about the asynchronous call guards -/

/-- Claim C8: `CallAsync` invoked with an absent client gate, a
non-created client, or an empty service or method name returns `false`;
if a response callback is registered it is invoked exactly once with
failed call state, `ret_state = 0`, the given method name, an empty
response and a non-empty error message; with no callback registered
nothing is invoked. -/
theorem C8_callasync_guard_failures (gate : Option (List SServiceAttr))
    (oracle : List (String × SessionState)) (st : ClientState) (m : String)
    (h : gate = Option.none ∨ st.m_created = false ∨ st.m_service_name = "" ∨ m = "") :
    (CallAsync gate oracle st m).1 = false ∧
    (st.m_response_callback = true →
      ∃ msg, msg ≠ "" ∧ (CallAsync gate oracle st m).2 =
        [{ host_name := ""
           service_name := ""
           service_id := ""
           method_name := m
           error_msg := msg
           ret_state := 0
           call_state := ECallState.call_state_failed
           response := "" }]) ∧
    (st.m_response_callback = false → (CallAsync gate oracle st m).2 = []) := by
  rcases gate with _ | vec
  · refine ⟨rfl, ?_, ?_⟩
    · intro hcb
      exact ⟨"Clientgate error.", by decide, by simp [CallAsync, ErrorCallback, hcb]⟩
    · intro hcb
      simp [CallAsync, ErrorCallback, hcb]
  · by_cases hcr : st.m_created = true
    · have hnm : st.m_service_name = "" ∨ m = "" := by
        rcases h with h | h | h | h
        · exact absurd h (by simp)
        · rw [hcr] at h; exact absurd h (by simp)
        · exact Or.inl h
        · exact Or.inr h
      refine ⟨?_, ?_, ?_⟩
      · simp [CallAsync, hcr, hnm]
      · intro hcb
        exact ⟨"Invalid service or method name.", by decide,
          by simp [CallAsync, hcr, hnm, ErrorCallback, hcb]⟩
      · intro hcb
        simp [CallAsync, hcr, hnm, ErrorCallback, hcb]
    · have hcr' : st.m_created = false := by
        cases hb : st.m_created
        · rfl
        · exact absurd hb hcr
      refine ⟨?_, ?_, ?_⟩
      · simp [CallAsync, hcr']
      · intro hcb
        exact ⟨"Client hasn't been created yet.", by decide,
          by simp [CallAsync, hcr', ErrorCallback, hcb]⟩
      · intro hcb
        simp [CallAsync, hcr', ErrorCallback, hcb]

/-- Claim C8 witness: absent client gate with a registered response
callback. -/
theorem C8_witness :
    (CallAsync Option.none [] { initState with m_response_callback := true } "echo").1 = false ∧
    ∃ msg, msg ≠ "" ∧
      (CallAsync Option.none [] { initState with m_response_callback := true } "echo").2 =
        [{ host_name := ""
           service_name := ""
           service_id := ""
           method_name := "echo"
           error_msg := msg
           ret_state := 0
           call_state := ECallState.call_state_failed
           response := "" }] :=
  ⟨(C8_callasync_guard_failures Option.none []
      { initState with m_response_callback := true } "echo" (Or.inl rfl)).1,
    (C8_callasync_guard_failures Option.none []
      { initState with m_response_callback := true } "echo" (Or.inl rfl)).2.1 rfl⟩

/-! ### Claim about removed event callbacks (null targets) -/

/-- Claim C10: after `RemEventCallback(connected)` the event-callback map
still holds an entry for `connected`, now with a null target; the next
connect transition in `RegisterService` finds the entry and invokes the
null `std::function`, which faults — the run aborts with no event fired,
contradicting the claim that the dispatch paths never invoke a null
callback target. -/
theorem C10_null_event_target_invoked :
    lookupA (runAux initState
        [Op.create "svc" "sid" Option.none [],
         Op.addEventCallback EventType.connected,
         Op.remEventCallback EventType.connected]).1.m_event_callback_map
      EventType.connected = some false ∧
    (runAux initState
        [Op.create "svc" "sid" Option.none [],
         Op.addEventCallback EventType.connected,
         Op.remEventCallback EventType.connected,
         Op.registerService "k" ⟨"h", "svc", "k", 1, 0, 0⟩]).2.2 = true ∧
    (runAux initState
        [Op.create "svc" "sid" Option.none [],
         Op.addEventCallback EventType.connected,
         Op.remEventCallback EventType.connected,
         Op.registerService "k" ⟨"h", "svc", "k", 1, 0, 0⟩]).2.1 = [] := by decide

/-! ### Association-list and disconnect-scan lemmas -/

theorem lookupA_eraseA {α β : Type} [DecidableEq α] (m : List (α × β)) (k k' : α) :
    lookupA (eraseA m k') k = if k = k' then Option.none else lookupA m k := by
  induction m with
  | nil => by_cases h : k = k' <;> simp [eraseA, lookupA, h]
  | cons p rest ih =>
    obtain ⟨a, b⟩ := p
    by_cases h1 : a = k'
    · have hdrop : eraseA ((a, b) :: rest) k' = eraseA rest k' := by
        simp [eraseA, List.filter_cons, h1]
      rw [hdrop, ih]
      by_cases h2 : k = k'
      · simp [h2]
      · have hak : ¬(a = k) := by rw [h1]; intro hh; exact h2 hh.symm
        simp [h2, lookupA, hak]
    · have hkeep : eraseA ((a, b) :: rest) k' = (a, b) :: eraseA rest k' := by
        simp [eraseA, List.filter_cons, h1]
      rw [hkeep]
      by_cases h2 : a = k
      · subst h2
        simp [lookupA, h1]
      · simp [lookupA, h2, ih]

theorem scanFailed_no_new (ecb : List (EventType × Bool)) :
    ∀ (cmap : List (String × Session)) (conn : List (String × SServiceAttr)) (k : String),
      lookupA conn k = Option.none →
      lookupA (scanFailed ecb cmap conn).1 k = Option.none := by
  intro cmap
  induction cmap with
  | nil => intro conn k h; exact h
  | cons p rest ih =>
    intro conn k h
    obtain ⟨k', sess⟩ := p
    by_cases hcond : sess.state = SessionState.failed ∧ (lookupA conn k').isSome
    · have herase : lookupA (eraseA conn k') k = Option.none := by
        rw [lookupA_eraseA]
        by_cases hk : k = k' <;> simp [hk, h]
      rcases hecb : lookupA ecb EventType.disconnected with _ | b
      · simp only [scanFailed, hcond, if_pos, hecb]
        exact ih _ k herase
      · cases b
        · simp only [scanFailed, hcond, if_pos, hecb]
          exact h
        · simp only [scanFailed, hcond, if_pos, hecb]
          exact ih _ k herase
    · simp only [scanFailed, hcond, if_neg, not_false_eq_true]
      exact ih conn k h

theorem scanFailed_failed_erased (ecb : List (EventType × Bool)) :
    ∀ (cmap : List (String × Session)) (conn : List (String × SServiceAttr))
      (k : String) (sess : Session),
      (scanFailed ecb cmap conn).2.2 = false →
      lookupA cmap k = some sess → sess.state = SessionState.failed →
      lookupA (scanFailed ecb cmap conn).1 k = Option.none := by
  intro cmap
  induction cmap with
  | nil => intro conn k sess _ hl; simp [lookupA] at hl
  | cons p rest ih =>
    intro conn k sess hfault hl hfailed
    obtain ⟨k', s'⟩ := p
    by_cases hk : k' = k
    · subst hk
      have hs : s' = sess := by simpa [lookupA] using hl
      subst hs
      rcases hsome : lookupA conn k' with _ | a
      · have hcond : ¬(s'.state = SessionState.failed ∧ (lookupA conn k').isSome) := by
          simp [hsome]
        simp only [scanFailed, hcond, if_neg, not_false_eq_true]
        exact scanFailed_no_new ecb rest conn k' hsome
      · have hcond : s'.state = SessionState.failed ∧ (lookupA conn k').isSome := by
          simp [hfailed, hsome]
        have herase : lookupA (eraseA conn k') k' = Option.none := by
          rw [lookupA_eraseA]; simp
        rcases hecb : lookupA ecb EventType.disconnected with _ | b
        · simp only [scanFailed, hcond, if_pos, hecb]
          exact scanFailed_no_new ecb rest _ k' herase
        · cases b
          · exfalso
            simp only [scanFailed, hcond, if_pos, hecb] at hfault
            exact Bool.true_eq_false.mp hfault
          · simp only [scanFailed, hcond, if_pos, hecb]
            exact scanFailed_no_new ecb rest _ k' herase
    · have hl' : lookupA rest k = some sess := by
        simpa [lookupA, hk] using hl
      by_cases hcond : s'.state = SessionState.failed ∧ (lookupA conn k').isSome
      · rcases hecb : lookupA ecb EventType.disconnected with _ | b
        · simp only [scanFailed, hcond, if_pos, hecb] at hfault ⊢
          exact ih _ k sess hfault hl' hfailed
        · cases b
          · exfalso
            simp only [scanFailed, hcond, if_pos, hecb] at hfault
            exact Bool.true_eq_false.mp hfault
          · simp only [scanFailed, hcond, if_pos, hecb] at hfault ⊢
            exact ih _ k sess hfault hl' hfailed
      · simp only [scanFailed, hcond, if_neg, not_false_eq_true] at hfault ⊢
        exact ih conn k sess hfault hl' hfailed

theorem lookupA_insertA {α β : Type} [DecidableEq α] (m : List (α × β)) (k k' : α) (v : β) :
    lookupA (insertA m k v) k' = if k = k' then some v else lookupA m k' := by
  induction m with
  | nil => by_cases h : k = k' <;> simp [insertA, lookupA, h]
  | cons p rest ih =>
    obtain ⟨a, b⟩ := p
    by_cases h1 : a = k
    · subst h1
      by_cases h2 : a = k' <;> simp [insertA, lookupA, h2]
    · by_cases h2 : a = k'
      · subst h2
        have hkk' : ¬(k = a) := fun hh => h1 hh.symm
        simp [insertA, lookupA, h1, hkk']
      · simp [insertA, lookupA, h1, h2, ih]

theorem lookupA_append {α β : Type} [DecidableEq α] (m1 m2 : List (α × β)) (k : α) :
    lookupA (m1 ++ m2) k =
      match lookupA m1 k with
      | some v => some v
      | Option.none => lookupA m2 k := by
  induction m1 with
  | nil => simp [lookupA]
  | cons p rest ih =>
    obtain ⟨a, b⟩ := p
    by_cases h : a = k <;> simp [lookupA, h, ih]

/-! ### Claim about the connected-services invariant -/

/-- Claim C4 counterexample: from a fresh client, `Create` followed by a
single `RegisterService` announcement (with no session for the key)
reaches a state whose connected-services map contains a key that is absent
from the peer-session map, refuting the claimed subset invariant. -/
theorem C4_counterexample :
    lookupA (runAux initState
        [Op.create "svc" "sid" Option.none [],
         Op.registerService "k" ⟨"h", "svc", "k", 1, 0, 0⟩]).1.m_connected_services_map
      "k" = some ⟨"h", "svc", "k", 1, 0, 0⟩ ∧
    lookupA (runAux initState
        [Op.create "svc" "sid" Option.none [],
         Op.registerService "k" ⟨"h", "svc", "k", 1, 0, 0⟩]).1.m_client_map
      "k" = Option.none := by decide

/-- Claim C4 (amended): the subset invariant does not hold at all reachable
states, because `RegisterService` inserts keys without consulting the
peer-session map; what holds is the postcondition of the periodic scan:
immediately after a `Register` that completes without fault on a client
with a non-empty service name, every key of the connected-services map
whose session is present in the peer-session map has a session that is not
FAILED. -/
theorem C4_amended_register_postcondition (gate : Option (List SServiceAttr))
    (oracle : List (String × SessionState)) (st : ClientState)
    (k : String) (sess : Session) (attr : SServiceAttr)
    (hname : st.m_service_name ≠ "")
    (hfault : (Register gate oracle st).2.2 = false)
    (hconn : lookupA (Register gate oracle st).1.m_connected_services_map k = some attr)
    (hsess : lookupA (Register gate oracle st).1.m_client_map k = some sess) :
    sess.state ≠ SessionState.failed := by
  intro hf
  simp only [Register, hname, if_neg, not_false_eq_true] at hfault hconn hsess
  have := scanFailed_failed_erased
    (CheckForNewServices gate oracle st).m_event_callback_map
    (CheckForNewServices gate oracle st).m_client_map
    (CheckForNewServices gate oracle st).m_connected_services_map
    k sess hfault hsess hf
  rw [this] at hconn
  cases hconn

/-- Claim C4 witness: after a fault-free `Register` on a client whose only
session is healthy and connected, the key still in the connected-services
map has a non-FAILED session. -/
theorem C4_witness :
    ({ initState with
        m_created := true
        m_service_name := "svc"
        m_client_map := [("k", ⟨1, SessionState.connected⟩)]
        m_connected_services_map := [("k", ⟨"h", "svc", "k", 1, 0, 0⟩)] } : ClientState).m_service_name ≠ "" ∧
    (Register Option.none [] { initState with
        m_created := true
        m_service_name := "svc"
        m_client_map := [("k", ⟨1, SessionState.connected⟩)]
        m_connected_services_map := [("k", ⟨"h", "svc", "k", 1, 0, 0⟩)] }).2.2 = false ∧
    (⟨1, SessionState.connected⟩ : Session).state ≠ SessionState.failed :=
  ⟨by decide, by decide,
    C4_amended_register_postcondition Option.none []
      { initState with
          m_created := true
          m_service_name := "svc"
          m_client_map := [("k", ⟨1, SessionState.connected⟩)]
          m_connected_services_map := [("k", ⟨"h", "svc", "k", 1, 0, 0⟩)] }
      "k" ⟨1, SessionState.connected⟩ ⟨"h", "svc", "k", 1, 0, 0⟩
      (by decide) (by decide) (by decide) (by decide)⟩


/-! ### Claim about event alternation -/

/-- Projection of a trace onto one peer key: the kinds of the events fired
for that key, in order. -/
def eventsForKey (k : String) (tr : List EventRec) : List EventType :=
  (tr.filter (fun e => decide (e.key = k))).map (fun e => e.etype)

/-- Alternation check: starting from `inConn` (whether the key is currently
in the connected-services map), a `connected` event is allowed only when
out, a `disconnected` event only when in, strictly alternating.  For
`inConn = false` this says: the trace starts with `connected`, strictly
alternates, and every `disconnected` pairs with a prior `connected`. -/
def altOk : Bool → List EventType → Bool
  | _, [] => true
  | false, EventType.connected :: r => altOk true r
  | true, EventType.disconnected :: r => altOk false r
  | _, _ => false

/-- Operations that neither clear the event-callback map (`Destroy`) nor
null an event callback target (`RemEventCallback`). -/
def keepsEventCallbacks : Op → Bool
  | Op.destroy => false
  | Op.remEventCallback _ => false
  | _ => true

theorem eventsForKey_nil (k : String) : eventsForKey k [] = [] := rfl

theorem eventsForKey_cons (k : String) (e : EventRec) (tr : List EventRec) :
    eventsForKey k (e :: tr) =
      if e.key = k then e.etype :: eventsForKey k tr else eventsForKey k tr := by
  by_cases h : e.key = k <;> simp [eventsForKey, List.filter_cons, h]

theorem eventsForKey_append (k : String) (t1 t2 : List EventRec) :
    eventsForKey k (t1 ++ t2) = eventsForKey k t1 ++ eventsForKey k t2 := by
  simp [eventsForKey, List.filter_append]

theorem CheckForNewServices_conn (gate : Option (List SServiceAttr))
    (oracle : List (String × SessionState)) (st : ClientState) :
    (CheckForNewServices gate oracle st).m_connected_services_map =
      st.m_connected_services_map := by
  rcases gate with _ | vec <;> rfl

theorem CheckForNewServices_ecb (gate : Option (List SServiceAttr))
    (oracle : List (String × SessionState)) (st : ClientState) :
    (CheckForNewServices gate oracle st).m_event_callback_map =
      st.m_event_callback_map := by
  rcases gate with _ | vec <;> rfl

/-- The disconnect scan with a live disconnected callback never faults,
and per key it turns the alternation obligation after the scan into the
one before the scan (emitting at most one `disconnected` per erased key). -/
theorem scanFailed_alt (ecb : List (EventType × Bool))
    (hd : lookupA ecb EventType.disconnected = some true) :
    ∀ (cmap : List (String × Session)) (conn : List (String × SServiceAttr)),
      (scanFailed ecb cmap conn).2.2 = false ∧
      ∀ (k : String) (l : List EventType),
        altOk (lookupA (scanFailed ecb cmap conn).1 k).isSome l = true →
        altOk (lookupA conn k).isSome
          (eventsForKey k (scanFailed ecb cmap conn).2.1 ++ l) = true := by
  intro cmap
  induction cmap with
  | nil =>
    intro conn
    exact ⟨rfl, fun k l h => by simpa [eventsForKey] using h⟩
  | cons p rest ih =>
    intro conn
    obtain ⟨k', sess⟩ := p
    by_cases hcond : sess.state = SessionState.failed ∧ (lookupA conn k').isSome
    · constructor
      · simp only [scanFailed, hcond, hd, true_and, and_self, if_true]
        exact (ih (eraseA conn k')).1
      · intro k l halt
        simp only [scanFailed, hcond, hd, true_and, and_self, if_true] at halt ⊢
        have h2 := (ih (eraseA conn k')).2 k l halt
        by_cases hk : k' = k
        · subst hk
          rw [eventsForKey_cons]
          simp only [if_pos rfl]
          have hin : (lookupA conn k').isSome = true := hcond.2
          rw [hin]
          have hout : (lookupA (eraseA conn k') k').isSome = false := by
            rw [lookupA_eraseA]; simp
          rw [hout] at h2
          exact h2
        · rw [eventsForKey_cons]
          simp only [hk, if_neg, not_false_eq_true]
          have hkk' : ¬(k = k') := fun hh => hk hh.symm
          have : lookupA (eraseA conn k') k = lookupA conn k := by
            rw [lookupA_eraseA, if_neg hkk']
          rw [this] at h2
          exact h2
    · simp only [scanFailed, hcond, if_neg, not_false_eq_true]
      exact ih conn

/-- `RegisterService` with a live connected callback never faults, leaves
the event-callback map unchanged, and per key prepends at most one
`connected` event exactly when the key enters the connected-services map. -/
theorem registerService_alt (key : String) (attr : SServiceAttr) (st : ClientState)
    (hc : lookupA st.m_event_callback_map EventType.connected = some true) :
    (RegisterService key attr st).2.2 = false ∧
    (RegisterService key attr st).1.m_event_callback_map = st.m_event_callback_map ∧
    ∀ (k : String) (l : List EventType),
      altOk (lookupA (RegisterService key attr st).1.m_connected_services_map k).isSome l = true →
      altOk (lookupA st.m_connected_services_map k).isSome
        (eventsForKey k (RegisterService key attr st).2.1 ++ l) = true := by
  rcases hlc : lookupA st.m_connected_services_map key with _ | a
  · simp only [RegisterService, hlc, emitEvent, hc, Bool.false_eq_true, if_false]
    refine ⟨by trivial, by trivial, ?_⟩
    intro k l halt
    rw [eventsForKey_cons]
    by_cases hk : key = k
    · subst hk
      simp only [if_pos rfl]
      have hsome : lookupA (st.m_connected_services_map ++ [(key, attr)]) key = some attr := by
        rw [lookupA_append, hlc]
        simp [lookupA]
      rw [hsome] at halt
      rw [hlc]
      exact halt
    · have hkeep : lookupA (st.m_connected_services_map ++ [(key, attr)]) k =
          lookupA st.m_connected_services_map k := by
        rw [lookupA_append]
        rcases lookupA st.m_connected_services_map k with _ | b
        · simp [lookupA, hk]
        · rfl
      rw [hkeep] at halt
      simp only [hk, if_neg, not_false_eq_true, eventsForKey_nil]
      exact halt
  · simp only [RegisterService, hlc]
    exact ⟨by trivial, by trivial, fun k l h => by simpa [eventsForKey] using h⟩

/-- `Register` with a live disconnected callback never faults, leaves the
event-callback map unchanged, and per key its trace preserves the
alternation obligation. -/
theorem register_alt (gate : Option (List SServiceAttr))
    (oracle : List (String × SessionState)) (st : ClientState)
    (hd : lookupA st.m_event_callback_map EventType.disconnected = some true) :
    (Register gate oracle st).2.2 = false ∧
    (Register gate oracle st).1.m_event_callback_map = st.m_event_callback_map ∧
    ∀ (k : String) (l : List EventType),
      altOk (lookupA (Register gate oracle st).1.m_connected_services_map k).isSome l = true →
      altOk (lookupA st.m_connected_services_map k).isSome
        (eventsForKey k (Register gate oracle st).2.1 ++ l) = true := by
  by_cases hn : st.m_service_name = ""
  · simp only [Register, hn, if_pos]
    exact ⟨by trivial, by trivial, fun k l h => by simpa [eventsForKey] using h⟩
  · have hecb := CheckForNewServices_ecb gate oracle st
    have hconn := CheckForNewServices_conn gate oracle st
    have hd1 : lookupA (CheckForNewServices gate oracle st).m_event_callback_map
        EventType.disconnected = some true := by rw [hecb]; exact hd
    have hs := scanFailed_alt (CheckForNewServices gate oracle st).m_event_callback_map hd1
      (CheckForNewServices gate oracle st).m_client_map
      (CheckForNewServices gate oracle st).m_connected_services_map
    simp only [Register, hn, if_neg, not_false_eq_true]
    refine ⟨hs.1, hecb, ?_⟩
    intro k l halt
    rw [← hconn]
    exact hs.2 k l halt

/-- One allowed operation, run from a state with live connected and
disconnected callbacks: no fault, the two callbacks stay live, and the
emitted events preserve the per-key alternation obligation. -/
theorem step_alt (st : ClientState) (op : Op)
    (hop : keepsEventCallbacks op = true)
    (hc : lookupA st.m_event_callback_map EventType.connected = some true)
    (hd : lookupA st.m_event_callback_map EventType.disconnected = some true) :
    (step st op).2.2 = false ∧
    lookupA (step st op).1.m_event_callback_map EventType.connected = some true ∧
    lookupA (step st op).1.m_event_callback_map EventType.disconnected = some true ∧
    ∀ (k : String) (l : List EventType),
      altOk (lookupA (step st op).1.m_connected_services_map k).isSome l = true →
      altOk (lookupA st.m_connected_services_map k).isSome
        (eventsForKey k (step st op).2.1 ++ l) = true := by
  cases op with
  | create n i g o =>
    obtain ⟨cr, sn, si, hn0, cm, cn, ecb, rc, ni⟩ := st
    cases cr with
    | true =>
      simp only [step, Create, if_pos]
      exact ⟨by trivial, hc, hd, fun k l h => by simpa [eventsForKey] using h⟩
    | false =>
      have hr := register_alt g o ⟨false, n, i, hn0, cm, cn, ecb, rc, ni⟩ hd
      simp only [step, Create, Bool.false_eq_true, if_false, hr.1]
      refine ⟨by trivial, ?_, ?_, ?_⟩
      · rw [hr.2.1]; exact hc
      · rw [hr.2.1]; exact hd
      · intro k l halt
        exact hr.2.2 k l halt
  | destroy => simp [keepsEventCallbacks] at hop
  | checkForNewServices g o =>
    simp only [step]
    refine ⟨by trivial, ?_, ?_, ?_⟩
    · rw [CheckForNewServices_ecb]; exact hc
    · rw [CheckForNewServices_ecb]; exact hd
    · intro k l halt
      rw [CheckForNewServices_conn] at halt
      simpa [eventsForKey] using halt
  | registerService key attr =>
    have hr := registerService_alt key attr st hc
    simp only [step]
    refine ⟨hr.1, ?_, ?_, hr.2.2⟩
    · rw [hr.2.1]; exact hc
    · rw [hr.2.1]; exact hd
  | refreshRegistration g o =>
    by_cases hcr : st.m_created = true
    · have hr := register_alt g o st hd
      simp only [step, RefreshRegistration, hcr, if_pos]
      refine ⟨hr.1, ?_, ?_, hr.2.2⟩
      · rw [hr.2.1]; exact hc
      · rw [hr.2.1]; exact hd
    · have hcr' : st.m_created = false := by
        cases hb : st.m_created
        · rfl
        · exact absurd hb hcr
      simp only [step, RefreshRegistration, hcr', Bool.false_eq_true, if_false]
      exact ⟨by trivial, hc, hd, fun k l h => by simpa [eventsForKey] using h⟩
  | addEventCallback t =>
    by_cases hcr : st.m_created = true
    · simp only [step, AddEventCallback, hcr, if_pos]
      refine ⟨by trivial, ?_, ?_, fun k l h => by simpa [eventsForKey] using h⟩
      · rw [lookupA_insertA]
        by_cases ht : t = EventType.connected <;> simp [ht, hc]
      · rw [lookupA_insertA]
        by_cases ht : t = EventType.disconnected <;> simp [ht, hd]
    · have hcr' : st.m_created = false := by
        cases hb : st.m_created
        · rfl
        · exact absurd hb hcr
      simp only [step, AddEventCallback, hcr', Bool.false_eq_true, if_false]
      exact ⟨by trivial, hc, hd, fun k l h => by simpa [eventsForKey] using h⟩
  | remEventCallback t => simp [keepsEventCallbacks] at hop
  | addResponseCallback =>
    simp only [step, AddResponseCallback]
    exact ⟨by trivial, hc, hd, fun k l h => by simpa [eventsForKey] using h⟩
  | remResponseCallback =>
    simp only [step, RemResponseCallback]
    exact ⟨by trivial, hc, hd, fun k l h => by simpa [eventsForKey] using h⟩
  | setHostName h =>
    by_cases hh : h = "*"
    · simp only [step, SetHostName, hh, if_pos]
      exact ⟨by trivial, hc, hd, fun k l hx => by simpa [eventsForKey] using hx⟩
    · simp only [step, SetHostName, hh, if_neg, not_false_eq_true]
      exact ⟨by trivial, hc, hd, fun k l hx => by simpa [eventsForKey] using hx⟩
  | sessionFail key =>
    simp only [step, sessionFailure]
    exact ⟨by trivial, hc, hd, fun k l h => by simpa [eventsForKey] using h⟩

/-- Claim C6 counterexample: a session that fails and whose peer is
re-announced produces `connected, disconnected, connected` for the same
peer key and the same session incarnation (the FAILED session is never
removed from the peer-session map), so `connected` fires twice for one
`(peer key, session incarnation)` pair, refuting the at-most-once clause. -/
theorem C6_counterexample :
    (runAux initState
      [Op.create "svc" "sid" Option.none [],
       Op.addEventCallback EventType.connected,
       Op.addEventCallback EventType.disconnected,
       Op.checkForNewServices (some [⟨"h", "svc", "k", 1, 0, 0⟩])
         [("k", SessionState.connecting)],
       Op.registerService "k" ⟨"h", "svc", "k", 1, 0, 0⟩,
       Op.sessionFail "k",
       Op.refreshRegistration (some []) [],
       Op.registerService "k" ⟨"h", "svc", "k", 1, 0, 0⟩]).2.1 =
      [⟨EventType.connected, "k", 1⟩, ⟨EventType.disconnected, "k", 1⟩,
       ⟨EventType.connected, "k", 1⟩] ∧
    ((runAux initState
      [Op.create "svc" "sid" Option.none [],
       Op.addEventCallback EventType.connected,
       Op.addEventCallback EventType.disconnected,
       Op.checkForNewServices (some [⟨"h", "svc", "k", 1, 0, 0⟩])
         [("k", SessionState.connecting)],
       Op.registerService "k" ⟨"h", "svc", "k", 1, 0, 0⟩,
       Op.sessionFail "k",
       Op.refreshRegistration (some []) [],
       Op.registerService "k" ⟨"h", "svc", "k", 1, 0, 0⟩]).2.1.filter
      (fun e => decide (e.etype = EventType.connected ∧ e.key = "k" ∧
        e.incarnation = 1))).length = 2 := by decide

/-- Claim C6 (amended): as long as the connected and disconnected event
callbacks stay registered (no `Destroy`, no `RemEventCallback`), the events
emitted for any fixed peer key strictly alternate, starting with
`connected` when the key is not yet in the connected-services map, and
every `disconnected` pairs with a prior `connected`; but `connected` may
fire more than once for the same `(peer key, session incarnation)`,
because a FAILED session stays in the peer-session map and the key can be
re-announced. -/
theorem C6_amended_alternation (st : ClientState) (ops : List Op) (k : String)
    (hops : ∀ op ∈ ops, keepsEventCallbacks op = true)
    (hc : lookupA st.m_event_callback_map EventType.connected = some true)
    (hd : lookupA st.m_event_callback_map EventType.disconnected = some true) :
    altOk (lookupA st.m_connected_services_map k).isSome
      (eventsForKey k (runAux st ops).2.1) = true := by
  induction ops generalizing st with
  | nil => simp [runAux, eventsForKey, altOk]
  | cons op rest ih =>
    have hs := step_alt st op (hops op (List.mem_cons_self op rest)) hc hd
    have hrest := ih (step st op).1
      (fun o ho => hops o (List.mem_cons_of_mem op ho)) hs.2.1 hs.2.2.1
    simp only [runAux, hs.1, Bool.false_eq_true, if_false]
    rw [eventsForKey_append]
    exact hs.2.2.2 k _ hrest

/-- Claim C6 witness: from a created client with both callbacks live and
an empty connected-services map, one `RegisterService` announcement yields
a per-key trace accepted by the alternation check. -/
theorem C6_witness :
    (∀ op ∈ [Op.registerService "k" (⟨"h", "svc", "k", 1, 0, 0⟩ : SServiceAttr)],
      keepsEventCallbacks op = true) ∧
    altOk false (eventsForKey "k"
      (runAux { initState with
          m_created := true
          m_service_name := "svc"
          m_event_callback_map :=
            [(EventType.connected, true), (EventType.disconnected, true)] }
        [Op.registerService "k" ⟨"h", "svc", "k", 1, 0, 0⟩]).2.1) = true :=
  ⟨by decide,
    C6_amended_alternation
      { initState with
          m_created := true
          m_service_name := "svc"
          m_event_callback_map :=
            [(EventType.connected, true), (EventType.disconnected, true)] }
      [Op.registerService "k" ⟨"h", "svc", "k", 1, 0, 0⟩] "k"
      (by decide) (by decide) (by decide)⟩
